import Mathlib

/-!
Verification development for the blog backend's authentication core
(`src/app.py`): JWT issuance (`generate_jwt_token`), verification
(`verify_jwt_token`), the route-protection decorator (`auth_required`),
the credential store (`users`, `hash_password`) and the sign-in handler
(`signin`).

Modelling conventions:
* Time is a `Nat` of seconds (Unix timestamps, as PyJWT serialises
  `datetime` expiry claims to integer seconds).
* The HMAC-SHA256 signature over a payload is modelled symbolically as
  the pair `(secret, payload)`: two signatures agree exactly when both
  the signing secret and the signed payload agree (a perfect MAC with
  no collisions).
* SHA-256 password hashing is modelled as an injective symbolic digest.
* A decoded JWT payload is a Python dict; the model keeps the keys the
  program ever reads or writes (`userId`, `email`, `iat`, `exp`), each
  an `Option` since a dict may lack any of them.  The source never
  writes an `iat` key, so issued payloads carry `iat = none`.
* Exceptions used for control flow in Python are explicit result
  constructors here.
-/

/-- A decoded JWT payload: a dict with the optional keys the program
reads or writes.  `exp` is a Unix timestamp in seconds. -/
structure Payload where
  userId : Option String
  email : Option String
  iat : Option Nat
  exp : Option Nat
deriving DecidableEq, Repr

/-- Symbolic HMAC-SHA256: the signature is determined by, and
determines, the signing secret and the signed payload. -/
def mac (secret : String) (p : Payload) : String × Payload :=
  (secret, p)

/-- A compact signed token: its payload and the MAC appearing in its
signature segment. -/
structure Token where
  payload : Payload
  sig : String × Payload
deriving DecidableEq, Repr

/-- `generate_jwt_token(user_id, email)` from `src/app.py`: builds the
payload `{"userId": user_id, "email": email, "exp": now + 24h}` and
signs it with `SECRET_KEY` using HS256.  No `iat` key is written. -/
def generate_jwt_token (user_id email : String) (secret : String)
    (now : Nat) : Token :=
  let payload : Payload :=
    { userId := some user_id, email := some email, iat := none,
      exp := some (now + 24 * 3600) }
  { payload := payload, sig := mac secret payload }

/-- The error outcomes of `verify_jwt_token`: `jwt.ExpiredSignatureError`
is answered with `("Token expired", 401)` and `jwt.InvalidTokenError`
(which covers signature mismatch and undecodable input) with
`("Invalid token", 401)`. -/
inductive VerifyError where
  | Expired
  | InvalidToken
deriving DecidableEq, Repr

/-- `verify_jwt_token(token)` from `src/app.py`, following PyJWT's
`jwt.decode` semantics: the signature is checked first; then, if an
`exp` claim is present, the token is rejected as expired when
`exp <= now`; no other claim is required or inspected. -/
def verify_jwt_token (t : Token) (secret : String) (now : Nat) :
    Except VerifyError Payload :=
  if t.sig = mac secret t.payload then
    match t.payload.exp with
    | some e => if e ≤ now then Except.error VerifyError.Expired
                else Except.ok t.payload
    | none => Except.ok t.payload
  else Except.error VerifyError.InvalidToken

/-- Verification of a token string: an undecodable string raises
`jwt.DecodeError` (a subclass of `InvalidTokenError`), answered as
"Invalid token".  `dec` is the wire decoding from compact token strings
to structured tokens. -/
def verify_jwt_string (dec : String → Option Token) (s : String)
    (secret : String) (now : Nat) : Except VerifyError Payload :=
  match dec s with
  | none => Except.error VerifyError.InvalidToken
  | some t => verify_jwt_token t secret now

/-- Python's `str.split(sep)` with a one-character separator: splits at
every occurrence of `sep`, keeping empty pieces (so `"a  b"` gives
three pieces and `""` gives one empty piece). -/
def pySplitAux (sep : Char) : List Char → List Char → List (List Char)
  | [], acc => [acc.reverse]
  | c :: cs, acc =>
    if c = sep then acc.reverse :: pySplitAux sep cs []
    else pySplitAux sep cs (c :: acc)

/-- `auth_header.split(" ")` from `src/app.py`. -/
def pySplitSpace (s : String) : List String :=
  (pySplitAux ' ' s.data []).map fun cs => String.mk cs

/-- Outcome of a request to a route wrapped by `auth_required`: either a
rejection response (message body and HTTP status) produced by the
decorator itself, or the wrapped handler's result, invoked with the
`userId` and `email` attached to the request. -/
inductive GateOutcome (α : Type) where
  | reject (msg : String) (status : Nat)
  | proceed (user_id user_email : Option String) (result : α)
deriving DecidableEq, Repr

/-- The `auth_required` decorator from `src/app.py`.  A missing header —
or an empty one, since `if not auth_header` is a falsiness test — is
rejected as missing; `auth_header.split(" ")[1]` raises `IndexError`
exactly when the split has no second element; otherwise that second
part is verified as the token, errors from verification are forwarded
with their status, and on success the handler runs with the payload's
`userId` and `email` attached. -/
def auth_required {α : Type} (dec : String → Option Token)
    (secret : String) (now : Nat) (auth_header : Option String)
    (f : Option String → Option String → α) : GateOutcome α :=
  match auth_header with
  | none => GateOutcome.reject "Authorization token is missing!" 401
  | some h =>
    if h = "" then GateOutcome.reject "Authorization token is missing!" 401
    else
      match (pySplitSpace h)[1]? with
      | none => GateOutcome.reject "Token format is 'Bearer <token>'" 401
      | some tok =>
        match verify_jwt_string dec tok secret now with
        | Except.error VerifyError.Expired =>
            GateOutcome.reject "Token expired" 401
        | Except.error VerifyError.InvalidToken =>
            GateOutcome.reject "Invalid token" 401
        | Except.ok payload =>
            GateOutcome.proceed payload.userId payload.email
              (f payload.userId payload.email)

/-- `hash_password` from `src/app.py`: SHA-256 hex digest of the
password, modelled as an injective symbolic digest. -/
def hash_password (password : String) : String :=
  String.append "sha256:" password

/-- A registered principal as stored in the `users` dict. -/
structure User where
  password_hash : String
  id : String
  email : String
deriving DecidableEq, Repr

/-- The in-memory `users` dict from `src/app.py`: a single registered
principal, keyed by email. -/
def users (email : String) : Option User :=
  if email = "macaulaydavid88@gmail.com" then
    some { password_hash := hash_password "password123",
           id := "user-001",
           email := "macaulaydavid88@gmail.com" }
  else none

/-- `users.get(email)` where `email` is `data.get("email")`: a missing
email field gives `None`, which is not a key of the dict. -/
def lookup_user (email : Option String) : Option User :=
  match email with
  | none => none
  | some e => users e

/-- Observable outcomes of the `signin` handler: success (the issued
token plus the echoed identity), the 401 `{"message": "Invalid
credentials"}` response, or an unhandled exception (`hash_password`
called on `None` raises `AttributeError`, surfaced by Flask as a 500,
never as the 401 response). -/
inductive SigninResult where
  | success (token : Token) (user_id user_email : String)
  | invalidCredentials
  | crash
deriving DecidableEq, Repr

/-- The `signin` handler from `src/app.py`.  Python's short-circuit
`user and user["password_hash"] == hash_password(password)` looks the
email up first; only when a user was found is `hash_password(password)`
evaluated, which is undefined (raises) when the password field is
absent. -/
def signin (email password : Option String) (secret : String)
    (now : Nat) : SigninResult :=
  match lookup_user email with
  | none => SigninResult.invalidCredentials
  | some user =>
    match password with
    | none => SigninResult.crash
    | some p =>
      if user.password_hash = hash_password p then
        SigninResult.success (generate_jwt_token user.id user.email secret now)
          user.id user.email
      else SigninResult.invalidCredentials

/-- The process-wide mutable environment the handlers close over: the
`users` dict and `SECRET_KEY`.  The token utilities are re-expressed
below as state transformers over it, making explicit which globals each
one reads or writes. -/
structure ServerState where
  users : String → Option User
  secret : String

/-- `generate_jwt_token` as executed in the process environment: it
reads `SECRET_KEY` from the environment and assigns no global. -/
def generate_jwt_token_st (st : ServerState) (user_id email : String)
    (now : Nat) : Token × ServerState :=
  (generate_jwt_token user_id email st.secret now, st)

/-- `verify_jwt_token` as executed in the process environment: it reads
`SECRET_KEY` from the environment and assigns no global. -/
def verify_jwt_token_st (st : ServerState) (t : Token) (now : Nat) :
    Except VerifyError Payload × ServerState :=
  (verify_jwt_token t st.secret now, st)

/-- A payload with none of the schema's keys: the empty dict `{}`. -/
def emptyPayload : Payload :=
  { userId := none, email := none, iat := none, exp := none }

/-- The empty payload correctly signed with the secret `"s"`. -/
def tokEmpty : Token :=
  { payload := emptyPayload, sig := mac "s" emptyPayload }

/-- A token signed with the secret `"other"`, otherwise well-formed and
unexpired at time 0. -/
def tokBadSig : Token :=
  generate_jwt_token "user-001" "macaulaydavid88@gmail.com" "other" 0

/-- A concrete wire decoding: the string `"tok"` decodes to the token
issued for the registered user at time 0 with secret `"s"`; every other
string is undecodable. -/
def decEx (s : String) : Option Token :=
  if s = "tok" then
    some (generate_jwt_token "user-001" "macaulaydavid88@gmail.com" "s" 0)
  else none

/-- A concrete wrapped handler, used to observe whether the gate
invoked it. -/
def handlerEx (_uid _email : Option String) : Nat := 7

/-- A second concrete handler, distinguishable from `handlerEx`. -/
def handlerEx2 (_uid _email : Option String) : Nat := 8

/-- C1: the claim asserts verification accepts exactly the tokens whose
signature verifies, whose `expires_at` is in the future, and whose
shape matches the schema `{subject_id, email, issued_at, expires_at}`,
rejecting schema violations with a MalformedClaims error.  Refuted:
the correctly signed empty payload `{}`, lacking every schema field,
is accepted by `verify_jwt_token` — no structural check exists. -/
theorem C1_schema_counterexample :
    verify_jwt_token tokEmpty "s" 0 = Except.ok emptyPayload
    ∧ emptyPayload.userId = none ∧ emptyPayload.email = none
    ∧ emptyPayload.iat = none ∧ emptyPayload.exp = none :=
  ⟨rfl, rfl, rfl, rfl, rfl⟩

/-- C1 (amended): verification accepts a token if and only if its
signature verifies against the current secret and its `exp` claim, when
present, is strictly in the future; no structural schema check is
performed.  A signature mismatch is rejected as InvalidToken before any
payload field is consulted, and a verified signature with
`exp <= now` is rejected as Expired. -/
theorem C1_verify_characterization (t : Token) (secret : String) (now : Nat) :
    ((∃ p, verify_jwt_token t secret now = Except.ok p)
      ↔ t.sig = mac secret t.payload
        ∧ ∀ e, t.payload.exp = some e → now < e)
    ∧ (t.sig ≠ mac secret t.payload →
        verify_jwt_token t secret now = Except.error VerifyError.InvalidToken)
    ∧ (∀ e, t.payload.exp = some e → e ≤ now →
        t.sig = mac secret t.payload →
        verify_jwt_token t secret now = Except.error VerifyError.Expired) := by
  unfold verify_jwt_token
  by_cases hs : t.sig = mac secret t.payload
  · simp only [hs, if_true, ne_eq, not_true_eq_false, false_implies, true_and]
    cases he : t.payload.exp with
    | none =>
      simp [he]
    | some e =>
      by_cases hle : e ≤ now <;> simp [he, hle] <;> omega
  · simp [hs]

/-- C1 witness: a well-formed token that has expired by verification
time is rejected as Expired via the characterization. -/
theorem C1_verify_characterization_witness :
    verify_jwt_token (generate_jwt_token "user-001" "macaulaydavid88@gmail.com" "s" 0)
        "s" 86400 = Except.error VerifyError.Expired :=
  (C1_verify_characterization
      (generate_jwt_token "user-001" "macaulaydavid88@gmail.com" "s" 0) "s" 86400).2.2
    86400 rfl (by decide) rfl

/-- C3: the claim asserts every issued token's decoded payload contains
an `issued_at` timestamp.  Refuted: the payload built by
`generate_jwt_token` has no `iat` key. -/
theorem C3_no_iat_counterexample :
    (generate_jwt_token "user-001" "macaulaydavid88@gmail.com" "s" 0).payload.iat
      = none := rfl

/-- C3 (amended): issuance builds a payload with exactly
`userId = principal id`, `email = principal email` and
`exp = now + 24h`, signs it with the server secret (HS256 MAC), and
writes no `issued_at` field. -/
theorem C3_issue_payload (uid email secret : String) (now : Nat) :
    (generate_jwt_token uid email secret now).payload =
      { userId := some uid, email := some email, iat := none,
        exp := some (now + 24 * 3600) }
    ∧ (generate_jwt_token uid email secret now).sig =
        mac secret (generate_jwt_token uid email secret now).payload :=
  ⟨rfl, rfl⟩

/-- C4: issuing a token for a registered principal and verifying it with
the same secret before expiry succeeds, returning claims whose
`userId` is the principal's id and whose `email` is the principal's
email. -/
theorem C4_issue_then_verify (e : String) (u : User) (secret : String)
    (now vt : Nat) (hu : users e = some u) (hv : vt < now + 24 * 3600) :
    verify_jwt_token (generate_jwt_token u.id u.email secret now) secret vt =
      Except.ok { userId := some u.id, email := some u.email, iat := none,
                  exp := some (now + 24 * 3600) } := by
  simp [verify_jwt_token, generate_jwt_token, mac]
  omega

/-- C4 witness: the registered principal, issued at time 0 and verified
immediately. -/
theorem C4_issue_then_verify_witness :
    verify_jwt_token
        (generate_jwt_token "user-001" "macaulaydavid88@gmail.com" "s" 0) "s" 0 =
      Except.ok { userId := some "user-001",
                  email := some "macaulaydavid88@gmail.com", iat := none,
                  exp := some 86400 } :=
  C4_issue_then_verify "macaulaydavid88@gmail.com"
    { password_hash := hash_password "password123", id := "user-001",
      email := "macaulaydavid88@gmail.com" }
    "s" 0 0 (by decide) (by decide)

/-- C5: a token issued at `now` verifies successfully at
`now + 23h59m` and fails as Expired at `now + 24h00m01s`. -/
theorem C5_expiry_boundaries (uid email secret : String) (now : Nat) :
    verify_jwt_token (generate_jwt_token uid email secret now) secret
        (now + (23 * 3600 + 59 * 60)) =
      Except.ok { userId := some uid, email := some email, iat := none,
                  exp := some (now + 24 * 3600) }
    ∧ verify_jwt_token (generate_jwt_token uid email secret now) secret
        (now + (24 * 3600 + 1)) =
      Except.error VerifyError.Expired := by
  constructor <;> simp [verify_jwt_token, generate_jwt_token, mac] <;> omega

/-- C6: a token whose signature was produced with any secret other than
the one verification is configured with is rejected as an invalid
token, whatever its payload. -/
theorem C6_wrong_secret_rejected (t : Token) (secret secret2 : String)
    (now : Nat) (hsig : t.sig = mac secret2 t.payload)
    (hne : secret2 ≠ secret) :
    verify_jwt_token t secret now = Except.error VerifyError.InvalidToken := by
  unfold verify_jwt_token
  rw [hsig]
  simp [mac, hne]

/-- C6 witness: a well-formed, unexpired token signed with `"other"` is
rejected when verified with `"s"`. -/
theorem C6_wrong_secret_rejected_witness :
    verify_jwt_token tokBadSig "s" 0 = Except.error VerifyError.InvalidToken :=
  C6_wrong_secret_rejected tokBadSig "s" "other" 0 rfl (by decide)


/-- Gate helper: with a present non-empty header whose space-split has
no second piece, the decorator answers the format rejection. -/
theorem auth_required_tok_none {α : Type} (dec : String → Option Token)
    (secret : String) (now : Nat) (h : String)
    (f : Option String → Option String → α) (hne : h ≠ "")
    (htok : (pySplitSpace h)[1]? = none) :
    auth_required dec secret now (some h) f =
      GateOutcome.reject "Token format is 'Bearer <token>'" 401 := by
  simp [auth_required, hne, htok]

/-- Gate helper: with a second piece whose verification reports expiry,
the decorator forwards the expiry rejection. -/
theorem auth_required_tok_expired {α : Type} (dec : String → Option Token)
    (secret : String) (now : Nat) (h : String)
    (f : Option String → Option String → α) (tok : String) (hne : h ≠ "")
    (htok : (pySplitSpace h)[1]? = some tok)
    (hv : verify_jwt_string dec tok secret now =
      Except.error VerifyError.Expired) :
    auth_required dec secret now (some h) f =
      GateOutcome.reject "Token expired" 401 := by
  simp [auth_required, hne, htok, hv]

/-- Gate helper: with a second piece whose verification reports an
invalid token, the decorator forwards the invalid-token rejection. -/
theorem auth_required_tok_invalid {α : Type} (dec : String → Option Token)
    (secret : String) (now : Nat) (h : String)
    (f : Option String → Option String → α) (tok : String) (hne : h ≠ "")
    (htok : (pySplitSpace h)[1]? = some tok)
    (hv : verify_jwt_string dec tok secret now =
      Except.error VerifyError.InvalidToken) :
    auth_required dec secret now (some h) f =
      GateOutcome.reject "Invalid token" 401 := by
  simp [auth_required, hne, htok, hv]

/-- Gate helper: with a second piece that verifies, the decorator
attaches the payload identity and runs the wrapped handler. -/
theorem auth_required_tok_ok {α : Type} (dec : String → Option Token)
    (secret : String) (now : Nat) (h : String)
    (f : Option String → Option String → α) (tok : String) (p : Payload)
    (hne : h ≠ "") (htok : (pySplitSpace h)[1]? = some tok)
    (hv : verify_jwt_string dec tok secret now = Except.ok p) :
    auth_required dec secret now (some h) f =
      GateOutcome.proceed p.userId p.email (f p.userId p.email) := by
  simp [auth_required, hne, htok, hv]

/-- C2: the claim asserts every present header not of the exact shape
`Bearer <token>` (wrong scheme word, more than one part after the
scheme, ...) is rejected as malformed without invoking verification or
the handler.  Refuted: `"Bearer tok extra"` has two parts after the
scheme, yet the gate verifies the second part and invokes the wrapped
handler. -/
theorem C2_extra_parts_counterexample :
    auth_required decEx "s" 0 (some "Bearer tok extra") handlerEx =
      GateOutcome.proceed (some "user-001") (some "macaulaydavid88@gmail.com") 7
    ∧ (GateOutcome.proceed (some "user-001") (some "macaulaydavid88@gmail.com") 7
        : GateOutcome Nat) ≠
      GateOutcome.reject "Token format is 'Bearer <token>'" 401 :=
  ⟨rfl, by decide⟩

/-- C2 (amended): for a present non-empty header, the gate rejects with
the malformed-format message exactly when the header, split on single
spaces, has no second piece (the header contains no space); any header
with a second piece proceeds to verification of that piece — the scheme
word is never checked and extra pieces are ignored — and a verifiable
token there reaches the wrapped handler. -/
theorem C2_header_shape {α : Type} (dec : String → Option Token)
    (secret : String) (now : Nat) (h : String)
    (f : Option String → Option String → α) (hne : h ≠ "") :
    (auth_required dec secret now (some h) f =
        GateOutcome.reject "Token format is 'Bearer <token>'" 401
      ↔ (pySplitSpace h)[1]? = none)
    ∧ (∀ tok p, (pySplitSpace h)[1]? = some tok →
        verify_jwt_string dec tok secret now = Except.ok p →
        auth_required dec secret now (some h) f =
          GateOutcome.proceed p.userId p.email (f p.userId p.email)) := by
  cases htok : (pySplitSpace h)[1]? with
  | none =>
    constructor
    · constructor
      · intro _
        rfl
      · intro _
        exact auth_required_tok_none dec secret now h f hne htok
    · intro tok p htok2 _
      exact Option.noConfusion htok2
  | some tok =>
    constructor
    · constructor
      · intro hgate
        cases hv : verify_jwt_string dec tok secret now with
        | ok p =>
          rw [auth_required_tok_ok dec secret now h f tok p hne htok hv]
            at hgate
          exact GateOutcome.noConfusion hgate
        | error e =>
          cases e with
          | Expired =>
            rw [auth_required_tok_expired dec secret now h f tok hne htok hv]
              at hgate
            injection hgate with hmsg _
            exact absurd hmsg (by decide)
          | InvalidToken =>
            rw [auth_required_tok_invalid dec secret now h f tok hne htok hv]
              at hgate
            injection hgate with hmsg _
            exact absurd hmsg (by decide)
      · intro hcontra
        exact Option.noConfusion hcontra
    · intro tok2 p htok2 hv
      injection htok2 with heq
      subst heq
      exact auth_required_tok_ok dec secret now h f tok p hne htok hv

/-- C2 witness: a header with the scheme word `Basic` still has its
second piece verified and, it being a valid token, the handler runs. -/
theorem C2_header_shape_witness :
    auth_required decEx "s" 0 (some "Basic tok") handlerEx2 =
      GateOutcome.proceed (some "user-001") (some "macaulaydavid88@gmail.com") 8 :=
  (C2_header_shape decEx "s" 0 "Basic tok" handlerEx2 (by decide)).2
    "tok"
    { userId := some "user-001", email := some "macaulaydavid88@gmail.com",
      iat := none, exp := some 86400 }
    (by decide) rfl

/-- C7: sign-in with an unregistered email (whatever the password field
holds) and sign-in with a registered email but a wrong password both
produce exactly the `("Invalid credentials", 401)` response — the two
failure causes are externally indistinguishable. -/
theorem C7_signin_indistinguishable (e1 e2 p2 : String) (p1 : Option String)
    (secret : String) (now : Nat) (u : User)
    (h1 : users e1 = none) (h2 : users e2 = some u)
    (hw : hash_password p2 ≠ u.password_hash) :
    signin (some e1) p1 secret now = SigninResult.invalidCredentials
    ∧ signin (some e2) (some p2) secret now = SigninResult.invalidCredentials
    ∧ signin (some e1) p1 secret now = signin (some e2) (some p2) secret now := by
  simp [signin, lookup_user, h1, h2, Ne.symm hw]

/-- C7 witness: the unregistered `nobody@example.com` and the registered
email with the wrong password `"wrong"` both get the invalid-credentials
response. -/
theorem C7_signin_indistinguishable_witness :
    signin (some "nobody@example.com") none "s" 0 =
      SigninResult.invalidCredentials
    ∧ signin (some "macaulaydavid88@gmail.com") (some "wrong") "s" 0 =
      SigninResult.invalidCredentials :=
  ⟨(C7_signin_indistinguishable "nobody@example.com"
      "macaulaydavid88@gmail.com" "wrong" none "s" 0
      { password_hash := hash_password "password123", id := "user-001",
        email := "macaulaydavid88@gmail.com" }
      (by decide) (by decide) (by decide)).1,
   (C7_signin_indistinguishable "nobody@example.com"
      "macaulaydavid88@gmail.com" "wrong" none "s" 0
      { password_hash := hash_password "password123", id := "user-001",
        email := "macaulaydavid88@gmail.com" }
      (by decide) (by decide) (by decide)).2.1⟩

/-- C8: every request through the gate either ends in a rejection whose
status is 401 — the same rejection whatever handler is wrapped, so the
handler is not invoked — or the extracted token verified successfully
and the gate proceeds with the handler's result on the verified claims.
No failure path carries any status other than 401. -/
theorem C8_gate_totality {α : Type} (dec : String → Option Token)
    (secret : String) (now : Nat) (hdr : Option String)
    (f g : Option String → Option String → α) :
    (∃ msg, auth_required dec secret now hdr f = GateOutcome.reject msg 401
        ∧ auth_required dec secret now hdr g = GateOutcome.reject msg 401)
    ∨ (∃ h tok p, hdr = some h ∧ (pySplitSpace h)[1]? = some tok
        ∧ verify_jwt_string dec tok secret now = Except.ok p
        ∧ auth_required dec secret now hdr f =
            GateOutcome.proceed p.userId p.email (f p.userId p.email)) := by
  cases hdr with
  | none => exact Or.inl ⟨_, rfl, rfl⟩
  | some h =>
    by_cases hh : h = ""
    · subst hh
      exact Or.inl ⟨_, rfl, rfl⟩
    · cases htok : (pySplitSpace h)[1]? with
      | none =>
        exact Or.inl ⟨"Token format is 'Bearer <token>'",
          auth_required_tok_none dec secret now h f hh htok,
          auth_required_tok_none dec secret now h g hh htok⟩
      | some tok =>
        cases hv : verify_jwt_string dec tok secret now with
        | error e =>
          cases e with
          | Expired =>
            exact Or.inl ⟨"Token expired",
              auth_required_tok_expired dec secret now h f tok hh htok hv,
              auth_required_tok_expired dec secret now h g tok hh htok hv⟩
          | InvalidToken =>
            exact Or.inl ⟨"Invalid token",
              auth_required_tok_invalid dec secret now h f tok hh htok hv,
              auth_required_tok_invalid dec secret now h g tok hh htok hv⟩
        | ok p =>
          exact Or.inr ⟨h, tok, p, rfl, htok, hv,
            auth_required_tok_ok dec secret now h f tok p hh htok hv⟩

/-- C9: issuance and verification are deterministic in their explicit
inputs, the wall-clock time and the secret — two environments agreeing
on the secret give identical results whatever their credential stores
hold — and neither operation changes the process environment (in
particular neither touches the `users` store). -/
theorem C9_pure_deterministic (st1 st2 : ServerState) (uid email : String)
    (t : Token) (now : Nat) (hsec : st1.secret = st2.secret) :
    (generate_jwt_token_st st1 uid email now).1 =
      (generate_jwt_token_st st2 uid email now).1
    ∧ (generate_jwt_token_st st1 uid email now).2 = st1
    ∧ (verify_jwt_token_st st1 t now).1 = (verify_jwt_token_st st2 t now).1
    ∧ (verify_jwt_token_st st1 t now).2 = st1 := by
  refine ⟨?_, rfl, ?_, rfl⟩ <;>
    simp [generate_jwt_token_st, verify_jwt_token_st, hsec]

/-- C9 witness: the environment holding the real `users` store and the
environment with an empty store, sharing the secret `"s"`, issue the
same token, and issuance leaves the environment unchanged. -/
theorem C9_pure_deterministic_witness :
    (generate_jwt_token_st { users := users, secret := "s" }
        "user-001" "macaulaydavid88@gmail.com" 0).1 =
      (generate_jwt_token_st { users := fun _ => none, secret := "s" }
        "user-001" "macaulaydavid88@gmail.com" 0).1
    ∧ (generate_jwt_token_st { users := users, secret := "s" }
        "user-001" "macaulaydavid88@gmail.com" 0).2 =
      { users := users, secret := "s" } :=
  ⟨(C9_pure_deterministic { users := users, secret := "s" }
      { users := fun _ => none, secret := "s" }
      "user-001" "macaulaydavid88@gmail.com" tokEmpty 0 rfl).1,
   (C9_pure_deterministic { users := users, secret := "s" }
      { users := fun _ => none, secret := "s" }
      "user-001" "macaulaydavid88@gmail.com" tokEmpty 0 rfl).2.1⟩

/-- C10: sign-in looks the email up before touching the password: an
unregistered email is answered with the invalid-credentials 401 even
when the password field is absent (the hash is never computed), while a
registered email with an absent password makes `hash_password` raise,
so the request does not get the invalid-credentials 401. -/
theorem C10_lookup_before_hash (e1 e2 : String) (p : Option String)
    (secret : String) (now : Nat) (u : User)
    (h1 : users e1 = none) (h2 : users e2 = some u) :
    signin (some e1) p secret now = SigninResult.invalidCredentials
    ∧ signin (some e2) none secret now = SigninResult.crash
    ∧ signin (some e2) none secret now ≠ SigninResult.invalidCredentials := by
  simp [signin, lookup_user, h1, h2]

/-- C10 witness: the unregistered `nobody@example.com` with no password
gets the 401; the registered email with no password crashes instead. -/
theorem C10_lookup_before_hash_witness :
    signin (some "nobody@example.com") none "s" 0 =
      SigninResult.invalidCredentials
    ∧ signin (some "macaulaydavid88@gmail.com") none "s" 0 =
      SigninResult.crash :=
  ⟨(C10_lookup_before_hash "nobody@example.com" "macaulaydavid88@gmail.com"
      none "s" 0
      { password_hash := hash_password "password123", id := "user-001",
        email := "macaulaydavid88@gmail.com" }
      (by decide) (by decide)).1,
   (C10_lookup_before_hash "nobody@example.com" "macaulaydavid88@gmail.com"
      none "s" 0
      { password_hash := hash_password "password123", id := "user-001",
        email := "macaulaydavid88@gmail.com" }
      (by decide) (by decide)).2.1⟩
